import Mathlib

/-
Verification of the remote-command execution layer of `defining_acceptance`
(`src/defining_acceptance/clients/ssh.py`), shallowly embedded in Lean.

The embedding models the external world seen by one `SSHRunner.run`
invocation as a `ChannelEnv`: whether the connection attempt succeeds, the
sequence of observations the poll loop makes on each iteration (clock value,
exit-status readiness, `select` readiness, available stdout/stderr data),
the chunks still buffered when the process completes (read by the final
drain), and the remote exit status.  `SSHRunner.run` is then a pure function
of its arguments and the environment, returning the Python function's
outcome (a `CommandResult` or a raised error) together with a record of
which resources were opened and closed on that path.
-/

namespace DefiningAcceptance

/-- Result of a remote command execution (dataclass `CommandResult`). -/
structure CommandResult where
  command : String
  returncode : Int
  stdout : String
  stderr : String
deriving Repr, DecidableEq

/-- Property `CommandResult.succeeded`: true iff the return code is zero. -/
def CommandResult.succeeded (r : CommandResult) : Bool :=
  r.returncode == 0

/-- Exception `CommandError`: carries the originating result (`self.result`). -/
structure CommandError where
  result : CommandResult
deriving Repr, DecidableEq

/-- The message built in `CommandError.__init__` and passed to
`super().__init__`, i.e. `str(error)` for the raised exception. -/
def CommandError.message (e : CommandError) : String :=
  "Command failed (rc=" ++ toString e.result.returncode ++ "): "
    ++ e.result.command
    ++ "\nstdout: " ++ e.result.stdout
    ++ "\nstderr: " ++ e.result.stderr

/-- `CommandResult.check`: raise `CommandError` on a non-zero return code,
otherwise return the result itself. -/
def CommandResult.check (r : CommandResult) : Except CommandError CommandResult :=
  if r.returncode ≠ 0 then .error ⟨r⟩ else .ok r

/-- The character class of CPython `shlex.quote`: a character needs no
quoting iff it is ASCII alphanumeric, an underscore, or one of
`@ % + = : , .`, slash, hyphen (the pattern is compiled with `re.ASCII`,
so `\w` is ASCII-only). -/
def shlexSafeChar (c : Char) : Bool :=
  c.isAlphanum || c = '_' || c = '@' || c = '%' || c = '+' || c = '=' ||
    c = ':' || c = ',' || c = '.' || c = '/' || c = '-'

/-- CPython `shlex.quote`: the empty string becomes two single quotes; a
string of safe characters is returned unchanged; anything else is wrapped
in single quotes with each embedded single quote replaced by `'"'"'`. -/
def shlexQuote (s : String) : String :=
  if s.isEmpty then "\x27\x27"
  else if s.data.all shlexSafeChar then s
  else
    "\x27"
      ++ String.join (s.data.map fun c =>
          if c = Char.ofNat 39 then "\x27\x22\x27\x22\x27" else String.singleton c)
      ++ "\x27"

/-- The `command` argument of `SSHRunner.run`: a shell string or a sequence
of argument tokens. -/
inductive CommandArg where
  | str (s : String)
  | seq (parts : List String)
deriving Repr, DecidableEq

/-- The `command_str` computed at the top of `SSHRunner.run`: a sequence is
joined with `" ".join(shlex.quote(str(part)) for part in command)`; a plain
string is used as-is. -/
def commandStr : CommandArg → String
  | .str s => s
  | .seq parts => " ".intercalate (parts.map shlexQuote)

/-- The runner's constructor state (`user`, `private_key_path`, `tmp_dir`). -/
structure SSHRunner where
  user : String
  private_key_path : String
  tmp_dir : Option String
deriving Repr, DecidableEq

/-- One iteration's observations in the poll loop of `SSHRunner.run`:
the value `time.monotonic()` returns at the deadline check, whether
`channel.exit_status_ready()` is true at the loop condition, whether
`select` reported readiness, and what each of `recv_ready`/`recv` and
`recv_stderr_ready`/`recv_stderr` would deliver. -/
structure LoopEvent where
  time : Nat
  exitReady : Bool
  selectReady : Bool
  recvReady : Bool
  recvData : String
  recvStderrReady : Bool
  recvStderrData : String
deriving Repr, DecidableEq

/-- The external world of one `run` invocation: connection outcome, the
loop observations in order (an exhausted list means `exit_status_ready()`
turned true), the chunks still buffered at completion that the final drain
reads, and the exit status `recv_exit_status()` returns. -/
structure ChannelEnv where
  connectOk : Bool
  connectMsg : String
  startTime : Nat
  events : List LoopEvent
  finalStdout : List String
  finalStderr : List String
  exitStatus : Int
deriving Repr, DecidableEq

/-- Which resources one `run` invocation opened and closed by the time it
returned or its exception propagated.  `channelClosed` records the explicit
`channel.close()` performed on the timeout path. -/
structure ResourceState where
  filesOpened : Bool
  filesClosed : Bool
  clientOpened : Bool
  clientClosed : Bool
  channelClosed : Bool
deriving Repr, DecidableEq

/-- Errors `SSHRunner.run` can raise.  `sshError` is the connectivity
failure propagating out of `_connect`; `timeoutExpired` models
`subprocess.TimeoutExpired(command_str, timeout)` raised on deadline
expiry. -/
inductive RunError where
  | sshError (msg : String)
  | timeoutExpired (cmd : String) (timeoutSeconds : Nat)
deriving Repr, DecidableEq

/-- The `while not channel.exit_status_ready():` loop of `SSHRunner.run`.
Each event is one iteration: if the exit status is ready the loop ends; the
deadline is then checked (`time.monotonic() > deadline` raises
`TimeoutExpired` after `channel.close()`); otherwise whatever `select`
reports ready is drained into the accumulated chunk lists. -/
def execLoop (cmd : String) (timeoutSeconds deadline : Nat) :
    List LoopEvent → List String → List String →
    Except RunError (List String × List String)
  | [], outs, errs => .ok (outs, errs)
  | e :: rest, outs, errs =>
    if e.exitReady then .ok (outs, errs)
    else if deadline < e.time then .error (.timeoutExpired cmd timeoutSeconds)
    else
      execLoop cmd timeoutSeconds deadline rest
        (outs ++ (if e.selectReady && e.recvReady then [e.recvData] else []))
        (errs ++ (if e.selectReady && e.recvStderrReady then [e.recvStderrData] else []))

/-- The stdout chunks the poll loop collects before the process completes:
a direct description of which `recv` payloads the loop appends, used as the
specification against which the accumulating `execLoop` is proved. -/
def loopStdoutChunks (deadline : Nat) : List LoopEvent → List String
  | [] => []
  | e :: rest =>
    if e.exitReady then []
    else if deadline < e.time then []
    else (if e.selectReady && e.recvReady then [e.recvData] else [])
      ++ loopStdoutChunks deadline rest

/-- The stderr chunks the poll loop collects before the process completes. -/
def loopStderrChunks (deadline : Nat) : List LoopEvent → List String
  | [] => []
  | e :: rest =>
    if e.exitReady then []
    else if deadline < e.time then []
    else (if e.selectReady && e.recvStderrReady then [e.recvStderrData] else [])
      ++ loopStderrChunks deadline rest

/-- `SSHRunner.run` (`ssh.py` lines 109-233), as a function of the
invocation arguments and the channel environment.  Mirrors the source:
compute `command_str`; open the log files when `tmp_dir` is set; connect
(a failure here propagates before the `try`/`finally` is entered, so
nothing is closed); run the poll loop with `deadline = start + timeout`
computed once; on completion drain the still-buffered chunks and read the
exit status; the `finally` closes the client and any opened files on both
the normal and the raising path. -/
def SSHRunner.run (runner : SSHRunner) (hostname : String) (command : CommandArg)
    (timeoutSeconds : Nat) (env : ChannelEnv) :
    Except RunError CommandResult × ResourceState :=
  let command_str := commandStr command
  let filesOpened := runner.tmp_dir.isSome
  if env.connectOk then
    match execLoop command_str timeoutSeconds (env.startTime + timeoutSeconds)
        env.events [] [] with
    | .error e =>
        (.error e, ⟨filesOpened, filesOpened, true, true, true⟩)
    | .ok (outs, errs) =>
        (.ok ⟨command_str, env.exitStatus,
              String.join (outs ++ env.finalStdout),
              String.join (errs ++ env.finalStderr)⟩,
         ⟨filesOpened, filesOpened, true, true, false⟩)
  else
    (.error (.sshError env.connectMsg), ⟨filesOpened, false, false, false, false⟩)

/-- Modelled from the spec: `SSHError`, the connectivity error class of
spec section 7 ("ConnectivityError — authentication or session
establishment failed").  The class is imported from
`defining_acceptance.clients.ssh` by the repository's tests
(`tests/unit/test_ssh_types.py`, `tests/_vm_helpers.py`) but is missing
from the `ssh.py` under `src`, where the transport library's own exception
propagates out of `_connect`; per the spec it carries a message and is a
class distinct from `CommandError`. -/
def SSHError (msg : String) : RunError :=
  .sshError msg

/-- Modelled from the spec: the authenticated session route of one `run`
invocation — the ordered authenticated hops traversed to reach the target
and the credential used.  Spec section 4.1: the session optionally
traverses an intermediate "jump" host, i.e. is tunneled through a second
authenticated hop before reaching the target. -/
structure SessionRoute where
  hops : List String
  credential : String
deriving Repr, DecidableEq

/-- Modelled from the spec: session establishment under the
`private_key_override` and `proxy_jump_host` options of the extended `run`
signature (used by `tests/_vm_helpers.py` but missing from the `ssh.py`
under `src`).  With a jump host the route is the jump hop followed by the
target; the override credential replaces the runner's configured key. -/
def connectRoute (runner : SSHRunner) (hostname : String)
    (private_key_override : Option String) (proxy_jump_host : Option String) :
    SessionRoute :=
  ⟨(match proxy_jump_host with | some jump => [jump] | none => []) ++ [hostname],
   match private_key_override with | some k => k | none => runner.private_key_path⟩

/-- Modelled from the spec: `SSHRunner.run` extended with the
`private_key_override` and `proxy_jump_host` options; it behaves as
`SSHRunner.run` with the session established along `connectRoute`. -/
def runWithOptions (runner : SSHRunner) (hostname : String) (command : CommandArg)
    (timeoutSeconds : Nat) (env : ChannelEnv)
    (private_key_override : Option String) (proxy_jump_host : Option String) :
    (Except RunError CommandResult × ResourceState) × SessionRoute :=
  (SSHRunner.run runner hostname command timeoutSeconds env,
   connectRoute runner hostname private_key_override proxy_jump_host)

/-
Concrete fixtures used by witness and counterexample theorems.
-/

/-- A runner constructed with a log directory (`tmp_dir` set). -/
def runnerWithLogs : SSHRunner :=
  ⟨"ubuntu", "/keys/id_ed25519", some "/tmp/logs"⟩

/-- A runner constructed without a log directory. -/
def runnerNoLogs : SSHRunner :=
  ⟨"ubuntu", "/keys/id_ed25519", none⟩

/-- An environment in which connection establishment fails. -/
def envConnectFail : ChannelEnv :=
  ⟨false, "Authentication failed.", 0, [], [], [], 0⟩

/-- An environment in which the process completes at once with exit 0 and
no output. -/
def envImmediateOk : ChannelEnv :=
  ⟨true, "", 0, [], [], [], 0⟩

/-- An environment in which one chunk is streamed during the poll loop and
further chunks arrive between the last poll and completion, to be read by
the final drain; exit 0. -/
def envStreaming : ChannelEnv :=
  ⟨true, "", 0, [⟨1, false, true, true, "out-early ", false, ""⟩],
   ["out-late"], ["err-late"], 0⟩

/-- An environment in which the process completes at once with exit 127. -/
def envExit127 : ChannelEnv :=
  ⟨true, "", 0, [], [], [], 127⟩

/-- An environment in which the process never signals completion and emits
output continuously while the clock passes the deadline. -/
def envRunaway : ChannelEnv :=
  ⟨true, "", 0,
   [⟨1, false, true, true, "spam", false, ""⟩,
    ⟨1000, false, true, true, "spam", false, ""⟩],
   [], [], 0⟩

/-- The property claim C3 asserts of `SSHRunner.run`: on every exit path —
normal return, timeout, or any raised error, a connection failure included —
an opened client is closed and any opened log-file handles are closed. -/
def runCleanupClaim : Prop :=
  ∀ (runner : SSHRunner) (hostname : String) (command : CommandArg)
    (timeoutSeconds : Nat) (env : ChannelEnv),
    ((SSHRunner.run runner hostname command timeoutSeconds env).snd.filesOpened = true →
      (SSHRunner.run runner hostname command timeoutSeconds env).snd.filesClosed = true) ∧
    ((SSHRunner.run runner hostname command timeoutSeconds env).snd.clientOpened = true →
      (SSHRunner.run runner hostname command timeoutSeconds env).snd.clientClosed = true)

/-
Helper lemmas.
-/

/-- The accumulating poll loop, when it reaches completion, has appended
exactly the chunks described by `loopStdoutChunks`/`loopStderrChunks` to
its accumulators. -/
theorem execLoop_ok_eq (cmd : String) (t d : Nat) (evs : List LoopEvent) :
    ∀ (outs errs outsF errsF : List String),
      execLoop cmd t d evs outs errs = .ok (outsF, errsF) →
      outsF = outs ++ loopStdoutChunks d evs ∧
        errsF = errs ++ loopStderrChunks d evs := by
  induction evs with
  | nil =>
      intro outs errs outsF errsF h
      simp only [execLoop, Except.ok.injEq, Prod.mk.injEq] at h
      simp [loopStdoutChunks, loopStderrChunks, h.1, h.2]
  | cons e rest ih =>
      intro outs errs outsF errsF h
      simp only [execLoop] at h
      by_cases hex : e.exitReady
      · simp only [hex, if_true, Except.ok.injEq, Prod.mk.injEq] at h
        simp [loopStdoutChunks, loopStderrChunks, hex, h.1, h.2]
      · by_cases ht : d < e.time
        · simp [hex, ht] at h
        · rw [if_neg hex, if_neg ht] at h
          have h' := ih _ _ _ _ h
          refine ⟨?_, ?_⟩
          · rw [h'.1]
            simp [loopStdoutChunks, hex, ht, List.append_assoc]
          · rw [h'.2]
            simp [loopStderrChunks, hex, ht, List.append_assoc]

/-- If no observed iteration reports the exit status ready and the clock
passes the deadline at some iteration, the poll loop raises the timeout —
whatever output the iterations deliver. -/
theorem execLoop_timeout_of_deadline_passed (cmd : String) (t d : Nat)
    (evs : List LoopEvent) :
    ∀ (outs errs : List String),
      (∀ e ∈ evs, e.exitReady = false) →
      (∃ e ∈ evs, d < e.time) →
      execLoop cmd t d evs outs errs = .error (.timeoutExpired cmd t) := by
  induction evs with
  | nil =>
      intro outs errs _ hlate
      simp at hlate
  | cons e rest ih =>
      intro outs errs hall hlate
      have hex : e.exitReady = false := hall e (List.mem_cons_self e rest)
      simp only [execLoop, hex, Bool.false_eq_true, if_false]
      by_cases ht : d < e.time
      · simp [ht]
      · rw [if_neg ht]
        apply ih
        · exact fun x hx => hall x (List.mem_cons_of_mem _ hx)
        · rcases hlate with ⟨x, hx, hdx⟩
          rcases List.mem_cons.mp hx with h | hx'
          · exact absurd (h ▸ hdx) ht
          · exact ⟨x, hx', hdx⟩

/-- Characterisation of a completed `run`: the connection succeeded and the
result is built from the executed command string, the remote exit status,
and the concatenation of the loop-collected chunks with the final drain. -/
theorem run_ok_eq (runner : SSHRunner) (hostname : String) (command : CommandArg)
    (timeoutSeconds : Nat) (env : ChannelEnv) (res : CommandResult)
    (h : (SSHRunner.run runner hostname command timeoutSeconds env).fst = .ok res) :
    env.connectOk = true ∧
    res = ⟨commandStr command, env.exitStatus,
           String.join (loopStdoutChunks (env.startTime + timeoutSeconds) env.events
             ++ env.finalStdout),
           String.join (loopStderrChunks (env.startTime + timeoutSeconds) env.events
             ++ env.finalStderr)⟩ := by
  unfold SSHRunner.run at h
  by_cases hc : env.connectOk = true
  · rw [if_pos hc] at h
    rcases hE : execLoop (commandStr command) timeoutSeconds
        (env.startTime + timeoutSeconds) env.events [] [] with e | ⟨outs, errs⟩
    · rw [hE] at h
      simp at h
    · rw [hE] at h
      simp only [Except.ok.injEq] at h
      have h' := execLoop_ok_eq _ _ _ _ _ _ _ _ hE
      simp only [List.nil_append] at h'
      exact ⟨hc, by rw [← h, h'.1, h'.2]⟩
  · rw [if_neg hc] at h
    simp at h

/-
Claim theorems.
-/

/-- C1: For every invocation of `SSHRunner.run` in which the remote process
signals completion, the returned `CommandResult.stdout` and `stderr`
contain all chunks received on their respective streams: those collected
during the poll loop followed by those the final non-blocking drain reads
after the wait loop exits, before the exit status is collected and the
result is built. -/
theorem run_captures_all_output_including_final_drain
    (runner : SSHRunner) (hostname : String) (command : CommandArg)
    (timeoutSeconds : Nat) (env : ChannelEnv) (res : CommandResult)
    (h : (SSHRunner.run runner hostname command timeoutSeconds env).fst = .ok res) :
    res.stdout = String.join
        (loopStdoutChunks (env.startTime + timeoutSeconds) env.events
          ++ env.finalStdout) ∧
    res.stderr = String.join
        (loopStderrChunks (env.startTime + timeoutSeconds) env.events
          ++ env.finalStderr) := by
  rw [(run_ok_eq _ _ _ _ _ _ h).2]
  exact ⟨rfl, rfl⟩

/-- Witness for C1: a run in which one chunk arrives during the poll loop
and further chunks arrive between the last poll and the completion signal. -/
theorem run_captures_all_output_witness :
    (⟨"echo ok", 0, "out-early out-late", "err-late"⟩ : CommandResult).stdout
        = String.join (loopStdoutChunks (envStreaming.startTime + 5)
            envStreaming.events ++ envStreaming.finalStdout) ∧
    (⟨"echo ok", 0, "out-early out-late", "err-late"⟩ : CommandResult).stderr
        = String.join (loopStderrChunks (envStreaming.startTime + 5)
            envStreaming.events ++ envStreaming.finalStderr) :=
  run_captures_all_output_including_final_drain runnerNoLogs "10.0.0.10"
    (.str "echo ok") 5 envStreaming
    ⟨"echo ok", 0, "out-early out-late", "err-late"⟩ rfl

/-- C2: if the wall-clock deadline `start + timeout` (computed once)
elapses before the remote process completes, `run` closes the channel and
raises a timeout error carrying the command string and the configured
timeout value; the deadline is compared on every iteration, so the theorem
holds for arbitrary event sequences — in particular for a command that
produces output continuously. -/
theorem run_timeout_despite_continuous_output
    (runner : SSHRunner) (hostname : String) (command : CommandArg)
    (timeoutSeconds : Nat) (env : ChannelEnv)
    (hc : env.connectOk = true)
    (hnoexit : ∀ e ∈ env.events, e.exitReady = false)
    (hlate : ∃ e ∈ env.events, env.startTime + timeoutSeconds < e.time) :
    (SSHRunner.run runner hostname command timeoutSeconds env).fst
        = .error (.timeoutExpired (commandStr command) timeoutSeconds) ∧
    (SSHRunner.run runner hostname command timeoutSeconds env).snd.channelClosed
        = true := by
  have hE := execLoop_timeout_of_deadline_passed (commandStr command)
      timeoutSeconds (env.startTime + timeoutSeconds) env.events [] []
      hnoexit hlate
  unfold SSHRunner.run
  rw [if_pos hc, hE]
  exact ⟨rfl, rfl⟩

/-- Witness for C2: a run whose process never signals completion and emits
output on every iteration while the clock passes the deadline. -/
theorem run_timeout_witness :
    (SSHRunner.run runnerNoLogs "10.0.0.10" (.str "yes") 5 envRunaway).fst
        = .error (.timeoutExpired (commandStr (.str "yes")) 5) ∧
    (SSHRunner.run runnerNoLogs "10.0.0.10" (.str "yes") 5 envRunaway).snd.channelClosed
        = true :=
  run_timeout_despite_continuous_output runnerNoLogs "10.0.0.10" (.str "yes") 5
    envRunaway rfl (by decide)
    ⟨⟨1000, false, true, true, "spam", false, ""⟩, by decide, by decide⟩

/-- C3 counterexample: the cleanup claim fails on the connection-failure
path.  `run` opens the log files before calling `_connect`, and the
`try`/`finally` that closes them is entered only after `_connect` returns;
with a log directory configured and a failing connection, the error
propagates with the log-file handles opened and never closed. -/
theorem run_cleanup_claim_counterexample : ¬ runCleanupClaim := by
  intro h
  have h1 := (h runnerWithLogs "10.0.0.10" (.str "ls") 5 envConnectFail).1 rfl
  exact absurd h1 (by decide)

/-- C3 (amended): on every exit path of `run` entered after the session is
established — normal return, timeout, or any error raised in the I/O loop —
both the SSH session and any opened log-file handles are closed via the
guaranteed-cleanup block; when connection establishment itself fails, the
log-file handles opened beforehand are not closed. -/
theorem run_cleanup_after_session_established
    (runner : SSHRunner) (hostname : String) (command : CommandArg)
    (timeoutSeconds : Nat) (env : ChannelEnv)
    (hc : env.connectOk = true) :
    (SSHRunner.run runner hostname command timeoutSeconds env).snd.clientOpened
        = true ∧
    (SSHRunner.run runner hostname command timeoutSeconds env).snd.clientClosed
        = true ∧
    ((SSHRunner.run runner hostname command timeoutSeconds env).snd.filesOpened
        = true →
      (SSHRunner.run runner hostname command timeoutSeconds env).snd.filesClosed
        = true) := by
  unfold SSHRunner.run
  rw [if_pos hc]
  rcases hE : execLoop (commandStr command) timeoutSeconds
      (env.startTime + timeoutSeconds) env.events [] [] with e | ⟨outs, errs⟩ <;>
    exact ⟨rfl, rfl, fun hh => hh⟩

/-- Witness for C3 (amended): a run with a log directory configured whose
connection succeeds. -/
theorem run_cleanup_witness :
    (SSHRunner.run runnerWithLogs "10.0.0.10" (.str "ls") 5 envImmediateOk).snd.clientOpened
        = true ∧
    (SSHRunner.run runnerWithLogs "10.0.0.10" (.str "ls") 5 envImmediateOk).snd.clientClosed
        = true ∧
    ((SSHRunner.run runnerWithLogs "10.0.0.10" (.str "ls") 5 envImmediateOk).snd.filesOpened
        = true →
      (SSHRunner.run runnerWithLogs "10.0.0.10" (.str "ls") 5 envImmediateOk).snd.filesClosed
        = true) :=
  run_cleanup_after_session_established runnerWithLogs "10.0.0.10" (.str "ls") 5
    envImmediateOk rfl

/-- C4: when connection establishment fails, `run` raises the distinct
connectivity error (`SSHError`) carrying the failure message and never
returns a `CommandResult`; the theorem holds for every event sequence and
exit status, so the failure is surfaced immediately with no internal
retry. -/
theorem run_connect_failure_raises_ssh_error
    (runner : SSHRunner) (hostname : String) (command : CommandArg)
    (timeoutSeconds : Nat) (env : ChannelEnv)
    (hc : env.connectOk = false) :
    (SSHRunner.run runner hostname command timeoutSeconds env).fst
        = .error (SSHError env.connectMsg) ∧
    ∀ res : CommandResult,
      (SSHRunner.run runner hostname command timeoutSeconds env).fst
        ≠ .ok res := by
  unfold SSHRunner.run
  rw [if_neg (by rw [hc]; exact Bool.false_ne_true)]
  exact ⟨rfl, fun res h => Except.noConfusion h⟩

/-- Witness for C4: a run against an environment whose authentication
fails. -/
theorem run_connect_failure_witness :
    (SSHRunner.run runnerNoLogs "10.0.0.10" (.str "ls") 5 envConnectFail).fst
        = .error (SSHError envConnectFail.connectMsg) ∧
    ∀ res : CommandResult,
      (SSHRunner.run runnerNoLogs "10.0.0.10" (.str "ls") 5 envConnectFail).fst
        ≠ .ok res :=
  run_connect_failure_raises_ssh_error runnerNoLogs "10.0.0.10" (.str "ls") 5
    envConnectFail rfl

/-- C5: whenever the poll loop observes completion, `run` returns a normal
`CommandResult` carrying exactly the exit status the remote process
produced — the status is arbitrary, so a nonzero exit code by itself never
causes an error. -/
theorem run_returns_result_for_any_exit_code
    (runner : SSHRunner) (hostname : String) (command : CommandArg)
    (timeoutSeconds : Nat) (env : ChannelEnv) (outs errs : List String)
    (hc : env.connectOk = true)
    (hE : execLoop (commandStr command) timeoutSeconds
        (env.startTime + timeoutSeconds) env.events [] [] = .ok (outs, errs)) :
    (SSHRunner.run runner hostname command timeoutSeconds env).fst
        = .ok ⟨commandStr command, env.exitStatus,
               String.join (outs ++ env.finalStdout),
               String.join (errs ++ env.finalStderr)⟩ := by
  unfold SSHRunner.run
  rw [if_pos hc, hE]

/-- Witness for C5: a process completing with exit status 127 still yields
a normal result. -/
theorem run_returns_result_witness :
    (SSHRunner.run runnerNoLogs "10.0.0.10" (.str "definitely-missing") 5 envExit127).fst
        = .ok ⟨commandStr (.str "definitely-missing"), envExit127.exitStatus,
               String.join ([] ++ envExit127.finalStdout),
               String.join ([] ++ envExit127.finalStderr)⟩ :=
  run_returns_result_for_any_exit_code runnerNoLogs "10.0.0.10"
    (.str "definitely-missing") 5 envExit127 [] [] rfl rfl

/-- C6: `check` on a zero-exit result returns the very same result; on a
nonzero-exit result it raises a `CommandError` whose attached result is
that result, and that result has `succeeded = false`. -/
theorem check_returns_self_or_raises (r : CommandResult) :
    (r.returncode = 0 → r.check = .ok r) ∧
    (r.returncode ≠ 0 →
      r.check = .error ⟨r⟩ ∧ (CommandError.mk r).result = r ∧
        r.succeeded = false) := by
  constructor
  · intro h
    simp [CommandResult.check, h]
  · intro h
    refine ⟨by simp [CommandResult.check, h], rfl, ?_⟩
    simp [CommandResult.succeeded, h]

/-- Witness for C6: both branches at concrete results. -/
theorem check_returns_self_or_raises_witness :
    CommandResult.check ⟨"true", 0, "", ""⟩ = .ok ⟨"true", 0, "", ""⟩ ∧
    CommandResult.check ⟨"false", 1, "", ""⟩ = .error ⟨⟨"false", 1, "", ""⟩⟩ ∧
    CommandResult.succeeded ⟨"false", 1, "", ""⟩ = false :=
  ⟨(check_returns_self_or_raises ⟨"true", 0, "", ""⟩).1 rfl,
   ((check_returns_self_or_raises ⟨"false", 1, "", ""⟩).2 (by decide)).1,
   ((check_returns_self_or_raises ⟨"false", 1, "", ""⟩).2 (by decide)).2.2⟩

/-- C7: the string representation of `CommandError r` contains the command
string, the numeric exit code, and the full stdout and stderr text of `r`:
each occurs as a contiguous substring of the message. -/
theorem command_error_message_complete (r : CommandResult) :
    (∃ a b, (CommandError.mk r).message = a ++ r.command ++ b) ∧
    (∃ a b, (CommandError.mk r).message = a ++ toString r.returncode ++ b) ∧
    (∃ a b, (CommandError.mk r).message = a ++ r.stdout ++ b) ∧
    (∃ a b, (CommandError.mk r).message = a ++ r.stderr ++ b) := by
  refine
    ⟨⟨"Command failed (rc=" ++ toString r.returncode ++ "): ",
      "\nstdout: " ++ r.stdout ++ "\nstderr: " ++ r.stderr, ?_⟩,
     ⟨"Command failed (rc=",
      "): " ++ r.command ++ "\nstdout: " ++ r.stdout ++ "\nstderr: " ++ r.stderr, ?_⟩,
     ⟨"Command failed (rc=" ++ toString r.returncode ++ "): " ++ r.command
        ++ "\nstdout: ",
      "\nstderr: " ++ r.stderr, ?_⟩,
     ⟨"Command failed (rc=" ++ toString r.returncode ++ "): " ++ r.command
        ++ "\nstdout: " ++ r.stdout ++ "\nstderr: ",
      "", ?_⟩⟩ <;>
    simp [CommandError.message, String.append_assoc, String.append_empty]

/-- C8: a command given as a sequence of tokens is executed as the string
obtained by shell-escaping each token with `shlex.quote` and joining the
escaped tokens with single spaces, and the returned result's `command`
field records exactly that joined string. -/
theorem run_seq_command_quoted_and_joined
    (runner : SSHRunner) (hostname : String) (parts : List String)
    (timeoutSeconds : Nat) (env : ChannelEnv) (res : CommandResult)
    (h : (SSHRunner.run runner hostname (.seq parts) timeoutSeconds env).fst
        = .ok res) :
    commandStr (.seq parts) = " ".intercalate (parts.map shlexQuote) ∧
    res.command = " ".intercalate (parts.map shlexQuote) := by
  refine ⟨rfl, ?_⟩
  rw [(run_ok_eq _ _ _ _ _ _ h).2]
  rfl

/-- Witness for C8: a two-token command with a space in the second token. -/
theorem run_seq_command_witness :
    commandStr (.seq ["echo", "hello world"])
        = " ".intercalate (["echo", "hello world"].map shlexQuote) ∧
    (⟨"echo \x27hello world\x27", 0, "", ""⟩ : CommandResult).command
        = " ".intercalate (["echo", "hello world"].map shlexQuote) :=
  run_seq_command_quoted_and_joined runnerNoLogs "10.0.0.10"
    ["echo", "hello world"] 5 envImmediateOk
    ⟨"echo \x27hello world\x27", 0, "", ""⟩ rfl

/-- C9: the extended execute operation accepts an alternate-credential
option and a jump-host option; with a jump host the session route is the
authenticated jump hop followed by the target, with the override the
credential used is the override, and without options the route is the
direct hop under the runner's configured key. -/
theorem run_options_route (runner : SSHRunner) (hostname : String)
    (command : CommandArg) (timeoutSeconds : Nat) (env : ChannelEnv)
    (key jump : String) :
    (runWithOptions runner hostname command timeoutSeconds env
        (some key) (some jump)).snd = ⟨[jump, hostname], key⟩ ∧
    (runWithOptions runner hostname command timeoutSeconds env
        none none).snd = ⟨[hostname], runner.private_key_path⟩ ∧
    (runWithOptions runner hostname command timeoutSeconds env
        (some key) (some jump)).fst
      = SSHRunner.run runner hostname command timeoutSeconds env :=
  ⟨rfl, rfl, rfl⟩

/-- C10: a command given as a plain string is handed to the shell verbatim
— `commandStr` applies no escaping, quoting or validation to it — and the
returned result's `command` field equals that exact input string. -/
theorem run_str_command_verbatim
    (runner : SSHRunner) (hostname s : String)
    (timeoutSeconds : Nat) (env : ChannelEnv) (res : CommandResult)
    (h : (SSHRunner.run runner hostname (.str s) timeoutSeconds env).fst
        = .ok res) :
    commandStr (.str s) = s ∧ res.command = s := by
  refine ⟨rfl, ?_⟩
  rw [(run_ok_eq _ _ _ _ _ _ h).2]
  rfl

/-- Witness for C10: a shell string with metacharacters passes through
unchanged. -/
theorem run_str_command_witness :
    commandStr (.str "echo $HOME | grep -v \x27x\x27") = "echo $HOME | grep -v \x27x\x27" ∧
    (⟨"echo $HOME | grep -v \x27x\x27", 0, "", ""⟩ : CommandResult).command
        = "echo $HOME | grep -v \x27x\x27" :=
  run_str_command_verbatim runnerNoLogs "10.0.0.10" "echo $HOME | grep -v \x27x\x27"
    5 envImmediateOk ⟨"echo $HOME | grep -v \x27x\x27", 0, "", ""⟩ rfl

end DefiningAcceptance
